import Mathlib

/-!
Shallow embedding of `src/aconex_mcp.py` (an HTTP proxy in front of the
Aconex document API) and proofs about its token cache, project-id
resolution, response normalisation, request building and download path.

Modelling conventions:
* Python `str` becomes `String`; an optional value becomes `Option String`.
* Python truthiness of an optional string (`if pid:`) is `strTruthy`.
* Wall-clock time (`time()`) and `expires_in` are modelled as `Int`
  seconds; only comparison and addition occur in the source.
* Network calls are modelled as oracles: each handler receives the
  response the upstream would produce, and the outcome records how many
  upstream token requests were issued and which business request (url
  and query parameters) was issued, so that "no upstream call is made"
  is a provable statement.
* `resp.json()` and `xmltodict.parse` are third-party parsers; their
  outcomes are modelled as `Option JsonVal` fields of the upstream
  response (the parse either yields a value or fails).
-/

namespace Aconex

/-- Truthiness of an optional Python string: `None` and `""` are falsy. -/
def strTruthy : Option String → Bool
  | none => false
  | some s => s ≠ ""

/-- Python `x or d` for an optional string `x`: the default replaces a falsy value. -/
def orFalsy (s : Option String) (d : String) : String :=
  if strTruthy s then s.getD "" else d

/-- Does the character list start with the given needle? -/
def charsStartWith : List Char → List Char → Bool
  | _, [] => true
  | [], _ :: _ => false
  | c :: cs, d :: ds => c = d && charsStartWith cs ds

/-- Suffix of the haystack after the first occurrence of the needle
(`none` when the needle does not occur). Models Python
`hay.split(needle, 1)[1]` together with `needle in hay`. -/
def afterFirstAux : List Char → List Char → Option (List Char)
  | [], _ => none
  | c :: t, needle =>
    if charsStartWith (c :: t) needle then some ((c :: t).drop needle.length)
    else afterFirstAux t needle

/-- Python `needle in hay` (substring containment, non-empty needle). -/
def containsSub (hay needle : String) : Bool :=
  (afterFirstAux hay.toList needle.toList).isSome

/-- Python `hay.split(needle, 1)[1]`, guarded by `containsSub`. -/
def afterFirst (hay needle : String) : String :=
  match afterFirstAux hay.toList needle.toList with
  | some rest => String.mk rest
  | none => ""

/-- ASCII lower-casing of a string, as Python `str.lower` on header values. -/
def strLower (s : String) : String :=
  String.mk (s.toList.map Char.toLower)

/-- FastAPI `HTTPException(status_code, detail)`. -/
structure HTTPException where
  status : Nat
  detail : String
deriving DecidableEq, Repr

/-- JSON-like values: what `resp.json()` or `xmltodict.parse` can produce. -/
inductive JsonVal where
  | null : JsonVal
  | bool (b : Bool) : JsonVal
  | num (n : Int) : JsonVal
  | str (s : String) : JsonVal
  | arr (items : List JsonVal) : JsonVal
  | obj (fields : List (String × JsonVal)) : JsonVal

/-- Configuration read from the environment at startup, read-only afterwards:
`ACONEX_BASE`, `ACONEX_CLIENT_ID`, `ACONEX_CLIENT_SECRET`, `ACONEX_SCOPE`,
`ACONEX_DEFAULT_PROJECT_ID` (absent env var is `none`). -/
structure Config where
  base : String
  clientId : String
  clientSecret : String
  scope : String
  defaultProjectId : Option String

/-- The module-level token cache `_TOKEN = {"value": None, "exp": 0}`. -/
structure TokenCache where
  value : Option String
  exp : Int
deriving DecidableEq, Repr

/-- The initial cache at process start. -/
def initialCache : TokenCache := { value := none, exp := 0 }

/-- The parsed upstream response of the OAuth token endpoint:
its status code, raw text, and the `access_token` / `expires_in` fields
of its JSON body (absent field is `none`; `expires_in` after `int(...)`). -/
structure TokenResponse where
  status : Nat
  text : String
  access_token : Option String
  expires_in : Option Int

/-- Outcome of `_get_access_token`: the returned token or the raised
`HTTPException`, the cache afterwards, and how many upstream token
requests were issued (0 or 1). -/
structure TokenOutcome where
  result : Except HTTPException String
  cache : TokenCache
  requests : Nat

/-- Embedding of `_get_access_token` (src/aconex_mcp.py lines 75-106).
The reuse test is `_TOKEN["value"] and (_TOKEN["exp"] - now) > 60`;
refresh requires `ACONEX_CLIENT_ID` / `ACONEX_CLIENT_SECRET`; a non-200
upstream status or a falsy `access_token` raises a 502; on success the
cache becomes `{value: access, exp: now + expires_in}` with
`expires_in` defaulting to 1800. -/
def get_access_token (cfg : Config) (cache : TokenCache) (now : Int)
    (up : TokenResponse) : TokenOutcome :=
  if strTruthy cache.value && decide (cache.exp - now > 60) then
    { result := .ok (cache.value.getD ""), cache := cache, requests := 0 }
  else if cfg.clientId = "" || cfg.clientSecret = "" then
    { result := .error { status := 500,
                         detail := "Falta configurar ACONEX_CLIENT_ID / ACONEX_CLIENT_SECRET en Render" },
      cache := cache, requests := 0 }
  else if up.status ≠ 200 then
    { result := .error { status := 502,
                         detail := "Token error " ++ toString up.status ++ ": " ++ up.text },
      cache := cache, requests := 1 }
  else if !strTruthy up.access_token then
    { result := .error { status := 502,
                         detail := "Token sin access_token en respuesta de IDCS" },
      cache := cache, requests := 1 }
  else
    { result := .ok (up.access_token.getD ""),
      cache := { value := some (up.access_token.getD ""),
                 exp := now + up.expires_in.getD 1800 },
      requests := 1 }

/-- Embedding of `_effective_project_id` (src/aconex_mcp.py lines 50-55). -/
def effective_project_id (defaultProjectId : Option String)
    (pid : Option String) : Except HTTPException String :=
  if strTruthy pid then .ok (pid.getD "")
  else if strTruthy defaultProjectId then .ok (defaultProjectId.getD "")
  else .error { status := 400,
                detail := "Falta projectId y no hay ACONEX_DEFAULT_PROJECT_ID configurado" }

/-- An upstream business response as `_as_json` sees it: status code,
`Content-Type` header, body text, and the two parse oracles
(`resp.json()` and `xmltodict.parse(resp.text)`). -/
structure UpstreamResponse where
  status : Nat
  contentType : Option String
  text : String
  jsonBody : Option JsonVal
  xmlBody : Option JsonVal

/-- The normalised response `_as_json` returns: a `JSONResponse` or a
`PlainTextResponse`, each carrying a status code. -/
inductive Normalized where
  | jsonResponse (body : JsonVal) (status : Nat) : Normalized
  | plainText (body : String) (status : Nat) : Normalized

/-- Status code of a normalised response. -/
def Normalized.statusOf : Normalized → Nat
  | .jsonResponse _ s => s
  | .plainText _ s => s

/-- Embedding of `_as_json` (src/aconex_mcp.py lines 57-70): JSON when the
lower-cased `Content-Type` contains `application/json` (wrapping the raw
text on a parse failure), otherwise XML converted to JSON, otherwise the
plain text, always with the upstream status code. -/
def as_json (resp : UpstreamResponse) : Normalized :=
  if containsSub (strLower (orFalsy resp.contentType "")) "application/json" then
    match resp.jsonBody with
    | some data => .jsonResponse data resp.status
    | none => .jsonResponse (.obj [("raw", .str resp.text)]) resp.status
  else
    match resp.xmlBody with
    | some data => .jsonResponse data resp.status
    | none => .plainText resp.text resp.status

/-- A business request issued upstream: its URL and query parameters. -/
structure BizRequest where
  url : String
  params : List (String × String)
deriving DecidableEq, Repr

/-- Outcome of one request handler: the response or the raised
`HTTPException`, the token cache afterwards, the number of upstream
token requests issued, and the business request issued (if any). -/
structure HandlerOutcome (α : Type) where
  result : Except HTTPException α
  cache : TokenCache
  tokenRequests : Nat
  bizRequest : Option BizRequest

/-- The query parameters `search_register` builds (src/aconex_mcp.py
lines 174-181): the fixed `search_type=PAGED` plus paging fields, with
`search_query` appended only when truthy. -/
def search_params (page_number page_size : Int) (search_query : Option String)
    (return_fields : String) : List (String × String) :=
  [("search_type", "PAGED"),
   ("page_number", toString page_number),
   ("page_size", toString page_size),
   ("return_fields", return_fields)] ++
  (if strTruthy search_query then [("search_query", search_query.getD "")] else [])

/-- Embedding of the `search_register` handler (src/aconex_mcp.py lines
161-190): token first, then project id, then the upstream GET on
`{base}/projects/{pid}/register`, normalised by `_as_json`. -/
def search_register (cfg : Config) (cache : TokenCache) (now : Int)
    (tokUp : TokenResponse) (bizUp : UpstreamResponse)
    (projectId : Option String) (page_number page_size : Int)
    (search_query : Option String) (return_fields : String) :
    HandlerOutcome Normalized :=
  match get_access_token cfg cache now tokUp with
  | ⟨.error e, c, n⟩ =>
    { result := .error e, cache := c, tokenRequests := n, bizRequest := none }
  | ⟨.ok _, c, n⟩ =>
    match effective_project_id cfg.defaultProjectId projectId with
    | .error e =>
      { result := .error e, cache := c, tokenRequests := n, bizRequest := none }
    | .ok pid =>
      { result := .ok (as_json bizUp), cache := c, tokenRequests := n,
        bizRequest := some { url := cfg.base ++ "/projects/" ++ pid ++ "/register",
                             params := search_params page_number page_size
                               search_query return_fields } }

/-- Embedding of the `register_schema` handler (src/aconex_mcp.py lines
192-202). -/
def register_schema (cfg : Config) (cache : TokenCache) (now : Int)
    (tokUp : TokenResponse) (bizUp : UpstreamResponse)
    (projectId : Option String) : HandlerOutcome Normalized :=
  match get_access_token cfg cache now tokUp with
  | ⟨.error e, c, n⟩ =>
    { result := .error e, cache := c, tokenRequests := n, bizRequest := none }
  | ⟨.ok _, c, n⟩ =>
    match effective_project_id cfg.defaultProjectId projectId with
    | .error e =>
      { result := .error e, cache := c, tokenRequests := n, bizRequest := none }
    | .ok pid =>
      { result := .ok (as_json bizUp), cache := c, tokenRequests := n,
        bizRequest := some { url := cfg.base ++ "/projects/" ++ pid
                               ++ "/register/schema",
                             params := [] } }

/-- Embedding of the `document_metadata` handler (src/aconex_mcp.py lines
204-216): an empty `documentId` raises 400 before anything else. -/
def document_metadata (cfg : Config) (cache : TokenCache) (now : Int)
    (tokUp : TokenResponse) (bizUp : UpstreamResponse)
    (projectId : Option String) (documentId : String) :
    HandlerOutcome Normalized :=
  if documentId = "" then
    { result := .error { status := 400, detail := "Falta documentId" },
      cache := cache, tokenRequests := 0, bizRequest := none }
  else
    match get_access_token cfg cache now tokUp with
    | ⟨.error e, c, n⟩ =>
      { result := .error e, cache := c, tokenRequests := n, bizRequest := none }
    | ⟨.ok _, c, n⟩ =>
      match effective_project_id cfg.defaultProjectId projectId with
      | .error e =>
        { result := .error e, cache := c, tokenRequests := n, bizRequest := none }
      | .ok pid =>
        { result := .ok (as_json bizUp), cache := c, tokenRequests := n,
          bizRequest := some { url := cfg.base ++ "/projects/" ++ pid
                                 ++ "/register/" ++ documentId ++ "/metadata",
                               params := [] } }

/-- The upstream response of the file endpoint as `download_file` sees it:
status code and the two headers it inspects. -/
structure FileResponse where
  status : Nat
  contentType : Option String
  contentDisposition : Option String
deriving DecidableEq, Repr

/-- The streamed response `download_file` returns. `StreamingResponse` is
constructed without an explicit `status_code`, so the downstream status
is the constructor default 200 whatever the upstream status was. -/
structure StreamedResponse where
  status : Nat
  mediaType : String
  contentDisposition : String
deriving DecidableEq, Repr

/-- Is the character one of `"` (34), `'` (39), `;`, space — the set
Python strips from the extracted filename? -/
def stripSet (c : Char) : Bool :=
  c.toNat = 34 || c.toNat = 39 || c = ';' || c = ' '

/-- Python `s.strip("\x22'; ")`: remove leading and trailing characters
of `stripSet`. -/
def stripChars (s : String) : String :=
  String.mk (((s.toList.dropWhile stripSet).reverse.dropWhile stripSet).reverse)

/-- Filename extraction of `download_file` (src/aconex_mcp.py lines
231-237): when `filename=` occurs in the `Content-Disposition` value,
the part after its first occurrence, stripped; otherwise `none`. -/
def extract_fname (disp : String) : Option String :=
  if containsSub disp "filename=" then some (stripChars (afterFirst disp "filename="))
  else none

/-- Embedding of the `download_file` handler (src/aconex_mcp.py lines
218-243): empty `documentId` raises 400; then token, then project id;
the streamed response takes the upstream `Content-Type` (falling back to
`application/octet-stream`) and an `attachment; filename="..."` header,
with `{documentId}.bin` when no usable upstream filename exists. -/
def download_file (cfg : Config) (cache : TokenCache) (now : Int)
    (tokUp : TokenResponse) (fileUp : FileResponse)
    (projectId : Option String) (documentId : String) :
    HandlerOutcome StreamedResponse :=
  if documentId = "" then
    { result := .error { status := 400, detail := "Falta documentId" },
      cache := cache, tokenRequests := 0, bizRequest := none }
  else
    match get_access_token cfg cache now tokUp with
    | ⟨.error e, c, n⟩ =>
      { result := .error e, cache := c, tokenRequests := n, bizRequest := none }
    | ⟨.ok _, c, n⟩ =>
      match effective_project_id cfg.defaultProjectId projectId with
      | .error e =>
        { result := .error e, cache := c, tokenRequests := n, bizRequest := none }
      | .ok pid =>
        let fname := extract_fname (orFalsy fileUp.contentDisposition "")
        let media := orFalsy fileUp.contentType "application/octet-stream"
        let name := if strTruthy fname then fname.getD ""
                    else documentId ++ ".bin"
        { result := .ok { status := 200, mediaType := media,
                          contentDisposition :=
                            "attachment; filename=\"" ++ name ++ "\"" },
          cache := c, tokenRequests := n,
          bizRequest := some { url := cfg.base ++ "/projects/" ++ pid
                                 ++ "/register/" ++ documentId ++ "/file",
                               params := [] } }

/-- Token-cache states reachable from process start: the cache starts as
`initialCache` and is only ever rewritten by `_get_access_token`. -/
inductive Reachable (cfg : Config) : TokenCache → Prop where
  | init : Reachable cfg initialCache
  | step (c : TokenCache) (now : Int) (up : TokenResponse) :
      Reachable cfg c → Reachable cfg (get_access_token cfg c now up).cache

/-- A configuration with credentials but no default project id, for the
concrete runs below. -/
def cfgNoDefault : Config :=
  { base := "https://us1.aconex.com/api", clientId := "id", clientSecret := "sec",
    scope := "", defaultProjectId := none }

/-- A healthy token-endpoint response for the concrete runs below. -/
def tokUpOk : TokenResponse :=
  { status := 200, text := "", access_token := some "tok", expires_in := some 3600 }

/-- A JSON business response for the concrete runs below. -/
def bizUpJson : UpstreamResponse :=
  { status := 200, contentType := some "application/json", text := "\x7b\x7d",
    jsonBody := some (.obj []), xmlBody := none }

/-- A configuration whose client id is missing, for the concrete runs below. -/
def cfgNoClientId : Config :=
  { base := "https://us1.aconex.com/api", clientId := "", clientSecret := "sec",
    scope := "", defaultProjectId := some "D1" }

/-- A file-endpoint response with a quoted filename, for the concrete runs
below. -/
def fileUpPdf : FileResponse :=
  { status := 200, contentType := some "application/pdf",
    contentDisposition := some "attachment; filename=\"doc123.pdf\"" }

/-!
Theorems: one per claim of the specification, in claim order.
-/

/-- C1: `getAccessToken` implements reuse-vs-refresh. If a cached token is
present (truthy) and its expiry minus `now` exceeds 60 seconds, the cached
value is returned, no upstream token request is issued and the cache is
unchanged; otherwise, with credentials configured and the upstream
returning 200 with an `access_token`, exactly one upstream token request
is issued, the cache is overwritten with
`{value: access_token, exp: now + expires_in}` (where `expires_in`
defaults to 1800 when absent) and that token is returned. -/
theorem get_access_token_reuse_refresh (cfg : Config) (cache : TokenCache)
    (now : Int) (up : TokenResponse) :
    (strTruthy cache.value = true → cache.exp - now > 60 →
      get_access_token cfg cache now up =
        { result := .ok (cache.value.getD ""), cache := cache, requests := 0 })
    ∧ (¬(strTruthy cache.value = true ∧ cache.exp - now > 60) →
        cfg.clientId ≠ "" → cfg.clientSecret ≠ "" →
        up.status = 200 → strTruthy up.access_token = true →
        get_access_token cfg cache now up =
          { result := .ok (up.access_token.getD ""),
            cache := { value := some (up.access_token.getD ""),
                       exp := now + up.expires_in.getD 1800 },
            requests := 1 }) := by
  constructor
  · intro h1 h2
    simp [get_access_token, h1, h2]
  · intro h1 h2 h3 h4 h5
    have hb : (strTruthy cache.value && decide (cache.exp - now > 60)) = false := by
      by_cases hv : strTruthy cache.value = true
      · have hp : ¬(cache.exp - now > 60) := fun hp => h1 ⟨hv, hp⟩
        simp [hv, hp]
      · simp [Bool.not_eq_true] at hv
        simp [hv]
    simp [get_access_token, hb, h2, h3, h4, h5]

/-- Witness for C1: a fresh cached token is reused untouched, and an
expired cache is refreshed from a 200 response (with `expires_in` absent,
the expiry defaults to `now + 1800`). -/
theorem get_access_token_reuse_refresh_witness :
    get_access_token cfgNoDefault { value := some "old", exp := 200 } 100 tokUpOk
      = { result := .ok "old", cache := { value := some "old", exp := 200 },
          requests := 0 }
    ∧ get_access_token cfgNoDefault initialCache 1000
        { status := 200, text := "", access_token := some "tok", expires_in := none }
      = { result := .ok "tok", cache := { value := some "tok", exp := 2800 },
          requests := 1 } :=
  ⟨(get_access_token_reuse_refresh cfgNoDefault _ 100 tokUpOk).1 (by decide) (by decide),
   (get_access_token_reuse_refresh cfgNoDefault initialCache 1000 _).2
     (by decide) (by decide) (by decide) (by decide) (by decide)⟩

/-- C2: `_as_json` follows the decision order: a `Content-Type` containing
`application/json` (case-insensitively) means the JSON parse is used,
with `{"raw": text}` substituted on parse failure; otherwise the XML
parse is used; if that also fails the raw body is returned as plain
text; and in every case the upstream status code is preserved. -/
theorem as_json_decision_order (resp : UpstreamResponse) :
    (as_json resp).statusOf = resp.status
    ∧ (containsSub (strLower (orFalsy resp.contentType "")) "application/json" = true →
        (∀ d, resp.jsonBody = some d → as_json resp = .jsonResponse d resp.status)
        ∧ (resp.jsonBody = none →
            as_json resp =
              .jsonResponse (.obj [("raw", .str resp.text)]) resp.status))
    ∧ (containsSub (strLower (orFalsy resp.contentType "")) "application/json" = false →
        (∀ d, resp.xmlBody = some d → as_json resp = .jsonResponse d resp.status)
        ∧ (resp.xmlBody = none → as_json resp = .plainText resp.text resp.status)) := by
  cases hct : containsSub (strLower (orFalsy resp.contentType "")) "application/json"
  · cases hx : resp.xmlBody <;>
      simp [as_json, hct, hx, Normalized.statusOf]
  · cases hj : resp.jsonBody <;>
      simp [as_json, hct, hj, Normalized.statusOf]

/-- Witness for C2: a JSON 201 response stays a 201 JSON mapping; a 500
response of unknown content type with an unparseable body degrades to
plain text with status 500. -/
theorem as_json_decision_order_witness :
    as_json { status := 201, contentType := some "application/json; charset=utf-8",
              text := "\x7b\x7d", jsonBody := some (.obj []), xmlBody := none }
      = .jsonResponse (.obj []) 201
    ∧ as_json { status := 500, contentType := none, text := "oops",
                jsonBody := none, xmlBody := none }
      = .plainText "oops" 500 :=
  ⟨((as_json_decision_order _).2.1 (by decide)).1 (.obj []) rfl,
   ((as_json_decision_order _).2.2 (by decide)).2 rfl⟩

/-- C3: on the refresh path with credentials configured,
`_get_access_token` fails with a 502 in exactly two cases — a non-200
upstream status (carrying the upstream status and body in the detail)
and a 200 response whose `access_token` is absent or empty — and in both
cases the cache is left unchanged; in every other refresh outcome the
call succeeds. -/
theorem get_access_token_failure_cases (cfg : Config) (cache : TokenCache)
    (now : Int) (up : TokenResponse)
    (hre : ¬(strTruthy cache.value = true ∧ cache.exp - now > 60))
    (hid : cfg.clientId ≠ "") (hsec : cfg.clientSecret ≠ "") :
    (up.status ≠ 200 →
      get_access_token cfg cache now up =
        { result := .error { status := 502,
                             detail := "Token error " ++ toString up.status
                               ++ ": " ++ up.text },
          cache := cache, requests := 1 })
    ∧ (up.status = 200 → strTruthy up.access_token = false →
        get_access_token cfg cache now up =
          { result := .error { status := 502,
                               detail := "Token sin access_token en respuesta de IDCS" },
            cache := cache, requests := 1 })
    ∧ (up.status = 200 → strTruthy up.access_token = true →
        ∃ t, (get_access_token cfg cache now up).result = .ok t) := by
  have hb : (strTruthy cache.value && decide (cache.exp - now > 60)) = false := by
    by_cases hv : strTruthy cache.value = true
    · have hp : ¬(cache.exp - now > 60) := fun hp => hre ⟨hv, hp⟩
      simp [hv, hp]
    · simp [Bool.not_eq_true] at hv
      simp [hv]
  refine ⟨?_, ?_, ?_⟩
  · intro hs
    simp [get_access_token, hb, hid, hsec, hs]
  · intro hs ha
    simp [get_access_token, hb, hid, hsec, hs, ha]
  · intro hs ha
    exact ⟨up.access_token.getD "", by simp [get_access_token, hb, hid, hsec, hs, ha]⟩

/-- Witness for C3: a 401 token response yields a 502 carrying status and
body with the cache untouched; a 200 response without `access_token`
yields the other 502, also leaving the cache untouched. -/
theorem get_access_token_failure_cases_witness :
    get_access_token cfgNoDefault initialCache 0
        { status := 401, text := "invalid_client", access_token := none,
          expires_in := none }
      = { result := .error { status := 502,
                             detail := "Token error 401: invalid_client" },
          cache := initialCache, requests := 1 }
    ∧ get_access_token cfgNoDefault initialCache 0
        { status := 200, text := "\x7b\x7d", access_token := none, expires_in := none }
      = { result := .error { status := 502,
                             detail := "Token sin access_token en respuesta de IDCS" },
          cache := initialCache, requests := 1 } :=
  ⟨(get_access_token_failure_cases cfgNoDefault initialCache 0 _
      (by decide) (by decide) (by decide)).1 (by decide),
   (get_access_token_failure_cases cfgNoDefault initialCache 0 _
      (by decide) (by decide) (by decide)).2.1 rfl rfl⟩

/-- C4: `_effective_project_id` is a pure function returning the request
project id whenever it is truthy (regardless of the default), else the
configured default when truthy, else failing with the 400
missing-project-id `HTTPException`. -/
theorem effective_project_id_resolution (dflt pid : Option String) :
    (strTruthy pid = true → effective_project_id dflt pid = .ok (pid.getD ""))
    ∧ (strTruthy pid = false → strTruthy dflt = true →
        effective_project_id dflt pid = .ok (dflt.getD ""))
    ∧ (strTruthy pid = false → strTruthy dflt = false →
        effective_project_id dflt pid =
          .error { status := 400,
                   detail := "Falta projectId y no hay ACONEX_DEFAULT_PROJECT_ID configurado" }) := by
  refine ⟨?_, ?_, ?_⟩ <;> intro h1 <;> simp [effective_project_id, h1]

/-- Witness for C4: `resolve("P1")` is `"P1"` even with default `"D1"`;
`resolve(None)` with default `"D1"` is `"D1"`; `resolve(None)` with no
default fails with the 400 error. -/
theorem effective_project_id_resolution_witness :
    effective_project_id (some "D1") (some "P1") = .ok "P1"
    ∧ effective_project_id (some "D1") none = .ok "D1"
    ∧ effective_project_id none none =
        .error { status := 400,
                 detail := "Falta projectId y no hay ACONEX_DEFAULT_PROJECT_ID configurado" } :=
  ⟨(effective_project_id_resolution (some "D1") (some "P1")).1 (by decide),
   (effective_project_id_resolution (some "D1") none).2.1 (by decide) (by decide),
   (effective_project_id_resolution none none).2.2 (by decide) (by decide)⟩

/-- C5 counterexample: with credentials configured, an empty cache, a
healthy token endpoint and no project id anywhere, `search_register`
does fail with the 400 missing-project-id error — but an upstream token
request has been issued, contradicting the claim that no token-cache
read or upstream token request happens for such a request. -/
theorem resolver_order_counterexample :
    (search_register cfgNoDefault initialCache 1000 tokUpOk bizUpJson none 1 50
        none "docno,title,statusid,revision,registered").result
      = .error { status := 400,
                 detail := "Falta projectId y no hay ACONEX_DEFAULT_PROJECT_ID configurado" }
    ∧ (search_register cfgNoDefault initialCache 1000 tokUpOk bizUpJson none 1 50
        none "docno,title,statusid,revision,registered").tokenRequests = 1 :=
  ⟨rfl, rfl⟩

/-- C5 amended: in every handler the Token Cache is consulted before the
Project-ID Resolver. A request with no resolvable project id (and a
successful token step) fails with the 400 missing-project-id error only
after the token step: the outcome carries the token step's cache and its
token-request count, and no business request is issued. -/
theorem token_step_precedes_resolver (cfg : Config) (cache : TokenCache)
    (now : Int) (tokUp : TokenResponse) (bizUp : UpstreamResponse)
    (fileUp : FileResponse) (projectId : Option String)
    (page_number page_size : Int) (search_query : Option String)
    (return_fields : String) (documentId : String) (tok : String)
    (htok : (get_access_token cfg cache now tokUp).result = .ok tok)
    (hpid : strTruthy projectId = false)
    (hdflt : strTruthy cfg.defaultProjectId = false)
    (hdoc : documentId ≠ "") :
    search_register cfg cache now tokUp bizUp projectId page_number page_size
        search_query return_fields
      = { result := .error { status := 400,
                             detail := "Falta projectId y no hay ACONEX_DEFAULT_PROJECT_ID configurado" },
          cache := (get_access_token cfg cache now tokUp).cache,
          tokenRequests := (get_access_token cfg cache now tokUp).requests,
          bizRequest := none }
    ∧ register_schema cfg cache now tokUp bizUp projectId
      = { result := .error { status := 400,
                             detail := "Falta projectId y no hay ACONEX_DEFAULT_PROJECT_ID configurado" },
          cache := (get_access_token cfg cache now tokUp).cache,
          tokenRequests := (get_access_token cfg cache now tokUp).requests,
          bizRequest := none }
    ∧ document_metadata cfg cache now tokUp bizUp projectId documentId
      = { result := .error { status := 400,
                             detail := "Falta projectId y no hay ACONEX_DEFAULT_PROJECT_ID configurado" },
          cache := (get_access_token cfg cache now tokUp).cache,
          tokenRequests := (get_access_token cfg cache now tokUp).requests,
          bizRequest := none }
    ∧ download_file cfg cache now tokUp fileUp projectId documentId
      = { result := .error { status := 400,
                             detail := "Falta projectId y no hay ACONEX_DEFAULT_PROJECT_ID configurado" },
          cache := (get_access_token cfg cache now tokUp).cache,
          tokenRequests := (get_access_token cfg cache now tokUp).requests,
          bizRequest := none } := by
  rcases hg : get_access_token cfg cache now tokUp with ⟨res, c2, n2⟩
  rw [hg] at htok
  simp only at htok
  subst htok
  refine ⟨?_, ?_, ?_, ?_⟩ <;>
    simp [search_register, register_schema, document_metadata, download_file,
          effective_project_id, hg, hpid, hdflt, hdoc]

/-- Witness for C5's amended claim: the counterexample run, applied to all
four handlers. -/
theorem token_step_precedes_resolver_witness :
    (search_register cfgNoDefault initialCache 1000 tokUpOk bizUpJson none 1 50
        none "docno").result
      = .error { status := 400,
                 detail := "Falta projectId y no hay ACONEX_DEFAULT_PROJECT_ID configurado" }
    ∧ (document_metadata cfgNoDefault initialCache 1000 tokUpOk bizUpJson none
        "DOC1").tokenRequests = 1
    ∧ (download_file cfgNoDefault initialCache 1000 tokUpOk fileUpPdf none
        "DOC1").bizRequest = none := by
  have h := token_step_precedes_resolver cfgNoDefault initialCache 1000 tokUpOk
    bizUpJson fileUpPdf none 1 50 none "docno" "DOC1" "tok" rfl rfl rfl
    (by decide)
  refine ⟨by rw [h.1], by rw [h.2.2.1]; rfl, by rw [h.2.2.2]⟩

/-- C6: calling `document_metadata` or `download_file` with an empty
`documentId` fails with the 400 `Falta documentId` error before any
upstream call: no token request, no business request, cache untouched. -/
theorem empty_documentId_rejected (cfg : Config) (cache : TokenCache)
    (now : Int) (tokUp : TokenResponse) (bizUp : UpstreamResponse)
    (fileUp : FileResponse) (projectId : Option String) :
    document_metadata cfg cache now tokUp bizUp projectId ""
      = { result := .error { status := 400, detail := "Falta documentId" },
          cache := cache, tokenRequests := 0, bizRequest := none }
    ∧ download_file cfg cache now tokUp fileUp projectId ""
      = { result := .error { status := 400, detail := "Falta documentId" },
          cache := cache, tokenRequests := 0, bizRequest := none } :=
  ⟨rfl, rfl⟩

/-- Under a configuration with a missing client id or client secret, the
only reachable token-cache state is the initial empty one: the cache can
only be written by a successful refresh, which requires the credentials. -/
theorem reachable_no_creds_initial (cfg : Config)
    (hmiss : cfg.clientId = "" ∨ cfg.clientSecret = "") :
    ∀ c, Reachable cfg c → c = initialCache := by
  intro c hc
  induction hc with
  | init => rfl
  | step c now up _ ih =>
    subst ih
    rcases hmiss with h | h <;>
      simp [get_access_token, initialCache, strTruthy, h]

/-- C7: in server-managed mode, when the client id or client secret is
missing, every token demand on every reachable cache state fails with
the 500 configuration error at request time, issuing no upstream token
request and leaving the cache unchanged. -/
theorem missing_credentials_always_500 (cfg : Config)
    (hmiss : cfg.clientId = "" ∨ cfg.clientSecret = "")
    (c : TokenCache) (hc : Reachable cfg c) (now : Int) (up : TokenResponse) :
    get_access_token cfg c now up =
      { result := .error { status := 500,
                           detail := "Falta configurar ACONEX_CLIENT_ID / ACONEX_CLIENT_SECRET en Render" },
        cache := c, requests := 0 } := by
  have hcc := reachable_no_creds_initial cfg hmiss c hc
  subst hcc
  rcases hmiss with h | h <;>
    simp [get_access_token, initialCache, strTruthy, h]

/-- Witness for C7: with an empty client id, the very first token demand
after process start fails with the 500 configuration error. -/
theorem missing_credentials_always_500_witness :
    get_access_token cfgNoClientId initialCache 0 tokUpOk =
      { result := .error { status := 500,
                           detail := "Falta configurar ACONEX_CLIENT_ID / ACONEX_CLIENT_SECRET en Render" },
        cache := initialCache, requests := 0 } :=
  missing_credentials_always_500 cfgNoClientId (Or.inl rfl) initialCache
    Reachable.init 0 tokUpOk

/-- C8: whenever `search_register` issues its upstream request, the
query it sends is `search_params`, whose keys are exactly
`search_type` (fixed to `PAGED`), `page_number`, `page_size` and
`return_fields`, with a `search_query` key appended if and only if a
non-empty `search_query` was supplied — when it was not supplied the
key is absent altogether. -/
theorem search_register_query_shape (cfg : Config) (cache : TokenCache)
    (now : Int) (tokUp : TokenResponse) (bizUp : UpstreamResponse)
    (projectId : Option String) (page_number page_size : Int)
    (search_query : Option String) (return_fields : String) (br : BizRequest)
    (h : (search_register cfg cache now tokUp bizUp projectId page_number
            page_size search_query return_fields).bizRequest = some br) :
    br.params = search_params page_number page_size search_query return_fields
    ∧ (search_params page_number page_size search_query return_fields).map Prod.fst
        = ["search_type", "page_number", "page_size", "return_fields"]
          ++ (if strTruthy search_query then ["search_query"] else [])
    ∧ (search_params page_number page_size search_query return_fields).lookup
        "search_type" = some "PAGED"
    ∧ (search_params page_number page_size search_query return_fields).lookup
        "page_number" = some (toString page_number)
    ∧ (search_params page_number page_size search_query return_fields).lookup
        "page_size" = some (toString page_size)
    ∧ (search_params page_number page_size search_query return_fields).lookup
        "return_fields" = some return_fields
    ∧ (search_params page_number page_size search_query return_fields).lookup
        "search_query"
        = (if strTruthy search_query then some (search_query.getD "") else none) := by
  refine ⟨?_, ?_, ?_, ?_, ?_, ?_, ?_⟩
  · simp only [search_register] at h
    rcases hg : get_access_token cfg cache now tokUp with ⟨res, c2, n2⟩
    rw [hg] at h
    cases res with
    | error e => simp at h
    | ok tokv =>
      cases hep : effective_project_id cfg.defaultProjectId projectId with
      | error e =>
        rw [hep] at h
        simp at h
      | ok pid =>
        rw [hep] at h
        simp only [Option.some_inj] at h
        rw [← h]
  · cases hsq : strTruthy search_query <;> simp [search_params, hsq]
  · rfl
  · rfl
  · rfl
  · rfl
  · cases hsq : strTruthy search_query <;> simp [search_params, hsq, List.lookup]

/-- Witness for C8: a concrete search with no `search_query` issues a
request whose parameter keys omit `search_query`; supplying `"q"` adds
exactly that key. -/
theorem search_register_query_shape_witness :
    (search_register cfgNoDefault initialCache 1000 tokUpOk bizUpJson
        (some "P1") 1 50 none "docno").bizRequest
      = some { url := "https://us1.aconex.com/api/projects/P1/register",
               params := [("search_type", "PAGED"), ("page_number", "1"),
                          ("page_size", "50"), ("return_fields", "docno")] }
    ∧ (search_params 1 50 none "docno").lookup "search_query" = none
    ∧ (search_params 1 50 (some "q") "docno").lookup "search_query" = some "q" := by
  refine ⟨rfl, ?_, ?_⟩
  · have h := search_register_query_shape cfgNoDefault initialCache 1000 tokUpOk
      bizUpJson (some "P1") 1 50 none "docno"
      { url := "https://us1.aconex.com/api/projects/P1/register",
        params := [("search_type", "PAGED"), ("page_number", "1"),
                   ("page_size", "50"), ("return_fields", "docno")] } rfl
    exact h.2.2.2.2.2.2
  · have h := search_register_query_shape cfgNoDefault initialCache 1000 tokUpOk
      bizUpJson (some "P1") 1 50 (some "q") "docno"
      { url := "https://us1.aconex.com/api/projects/P1/register",
        params := [("search_type", "PAGED"), ("page_number", "1"),
                   ("page_size", "50"), ("return_fields", "docno"),
                   ("search_query", "q")] } rfl
    exact h.2.2.2.2.2.2

/-- C9: every streamed download response carries the upstream
`Content-Type` as its media type (`application/octet-stream` when the
upstream header is absent) and a `Content-Disposition` of the form
`attachment; filename="<name>"`, where `<name>` is the part of the
upstream `Content-Disposition` after `filename=` stripped of quote,
semicolon and space characters when that header contains `filename=`
and the stripped part is non-empty, and `{documentId}.bin` otherwise. -/
theorem download_file_headers (cfg : Config) (cache : TokenCache) (now : Int)
    (tokUp : TokenResponse) (fileUp : FileResponse) (projectId : Option String)
    (documentId : String) (resp : StreamedResponse)
    (h : (download_file cfg cache now tokUp fileUp projectId documentId).result
          = .ok resp) :
    resp.mediaType = orFalsy fileUp.contentType "application/octet-stream"
    ∧ resp.contentDisposition = "attachment; filename=\"" ++
        (if containsSub (orFalsy fileUp.contentDisposition "") "filename=" = true
            ∧ stripChars (afterFirst (orFalsy fileUp.contentDisposition "")
                 "filename=") ≠ ""
         then stripChars (afterFirst (orFalsy fileUp.contentDisposition "")
                "filename=")
         else documentId ++ ".bin") ++ "\"" := by
  simp only [download_file] at h
  by_cases hdoc : documentId = ""
  · simp [hdoc] at h
  · simp only [if_neg hdoc] at h
    rcases hg : get_access_token cfg cache now tokUp with ⟨res, c2, n2⟩
    rw [hg] at h
    cases res with
    | error e => simp at h
    | ok tokv =>
      cases hep : effective_project_id cfg.defaultProjectId projectId with
      | error e =>
        rw [hep] at h
        simp at h
      | ok pid =>
        rw [hep] at h
        simp only [Except.ok.injEq] at h
        subst h
        refine ⟨rfl, ?_⟩
        cases hc : containsSub (orFalsy fileUp.contentDisposition "") "filename="
        · simp [extract_fname, hc, strTruthy]
        · by_cases hs : stripChars (afterFirst (orFalsy fileUp.contentDisposition "")
              "filename=") = ""
          · simp [extract_fname, hc, strTruthy, hs]
          · simp [extract_fname, hc, strTruthy, hs]

/-- Witness for C9: a download whose upstream says
`Content-Disposition: attachment; filename="doc123.pdf"` is streamed as
`application/pdf` with downstream header
`attachment; filename="doc123.pdf"`. -/
theorem download_file_headers_witness :
    (download_file cfgNoDefault initialCache 1000 tokUpOk fileUpPdf
        (some "P1") "DOC1").result
      = .ok { status := 200, mediaType := "application/pdf",
              contentDisposition := "attachment; filename=\"doc123.pdf\"" }
    ∧ "attachment; filename=\"doc123.pdf\""
      = "attachment; filename=\"" ++
          (if containsSub (orFalsy fileUpPdf.contentDisposition "") "filename="
                = true
              ∧ stripChars (afterFirst (orFalsy fileUpPdf.contentDisposition "")
                   "filename=") ≠ ""
           then stripChars (afterFirst (orFalsy fileUpPdf.contentDisposition "")
                  "filename=")
           else "DOC1" ++ ".bin") ++ "\"" :=
  ⟨rfl,
   (download_file_headers cfgNoDefault initialCache 1000 tokUpOk fileUpPdf
      (some "P1") "DOC1"
      { status := 200, mediaType := "application/pdf",
        contentDisposition := "attachment; filename=\"doc123.pdf\"" } rfl).2⟩

/-- C10: every download that reaches the streaming stage is returned with
downstream status 200, whatever the upstream status of the file request
was — the download path does not propagate the upstream status code. -/
theorem download_file_status_always_200 (cfg : Config) (cache : TokenCache)
    (now : Int) (tokUp : TokenResponse) (fileUp : FileResponse)
    (projectId : Option String) (documentId : String) (resp : StreamedResponse)
    (h : (download_file cfg cache now tokUp fileUp projectId documentId).result
          = .ok resp) :
    resp.status = 200 := by
  simp only [download_file] at h
  by_cases hdoc : documentId = ""
  · simp [hdoc] at h
  · simp only [if_neg hdoc] at h
    rcases hg : get_access_token cfg cache now tokUp with ⟨res, c2, n2⟩
    rw [hg] at h
    cases res with
    | error e => simp at h
    | ok tokv =>
      cases hep : effective_project_id cfg.defaultProjectId projectId with
      | error e =>
        rw [hep] at h
        simp at h
      | ok pid =>
        rw [hep] at h
        simp only [Except.ok.injEq] at h
        subst h
        rfl

/-- Witness for C10: an upstream 404 on the file endpoint still streams
back with downstream status 200. -/
theorem download_file_status_always_200_witness :
    (download_file cfgNoDefault initialCache 1000 tokUpOk
        { status := 404, contentType := none, contentDisposition := none }
        (some "P1") "DOC1").result
      = .ok { status := 200, mediaType := "application/octet-stream",
              contentDisposition := "attachment; filename=\"DOC1.bin\"" }
    ∧ ({ status := 200, mediaType := "application/octet-stream",
         contentDisposition := "attachment; filename=\"DOC1.bin\"" }
          : StreamedResponse).status = 200 :=
  ⟨rfl,
   download_file_status_always_200 cfgNoDefault initialCache 1000 tokUpOk
     { status := 404, contentType := none, contentDisposition := none }
     (some "P1") "DOC1" _ rfl⟩

end Aconex
